import Mathlib

/-!
Verification of the battery-cell dashboard generator
(`src/cell_main.py` and `src/main.py`).

Numbers are modelled as exact rationals (`ℚ`).  `round(x, n)` from Python is
modelled by `round2` / `round1` below using Mathlib's `round` (nearest integer;
Python breaks ties to even, Mathlib rounds half up — no claim in this
development depends on tie direction, since all range endpoints are exact
multiples of the rounding grid).

Randomness: every call `random.uniform(a, b)` is modelled by `uniform a b u`
where `u : ℚ` is an abstract entropy draw; for distributional facts the draw is
constrained to `0 ≤ u ≤ 1`, under which `uniform a b u` ranges over exactly
`[a, b]`.  List-level generators take an entropy stream `ℕ → ℚ`, indexed per
cell and per sampled field.
-/

namespace CellSim

/-- Model of Python `round(x, 2)`: round to the nearest multiple of `1/100`. -/
def round2 (x : ℚ) : ℚ := (round (100 * x) : ℤ) / 100

/-- Model of Python `round(x, 1)`: round to the nearest multiple of `1/10`. -/
def round1 (x : ℚ) : ℚ := (round (10 * x) : ℤ) / 10

/-- Model of `random.uniform(a, b)`: the draw `u` is an abstract entropy value;
for `u ∈ [0,1]` the result ranges over `[a, b]`. -/
def uniform (a b u : ℚ) : ℚ := a + (b - a) * u

/-- Model of Python `str.lower()` (ASCII, which covers every tag in the
fixed selection lists): lowercase each character. -/
def str_lower (s : String) : String := ⟨s.data.map Char.toLower⟩

/-- Model of Python `str.upper()` (ASCII): uppercase each character. -/
def str_upper (s : String) : String := ⟨s.data.map Char.toUpper⟩

/-- Model of Python `s.strip() == ""`: every character is whitespace. -/
def str_blank (s : String) : Bool := s.data.all fun c => c.isWhitespace

/-- The cell-type list from `cell_main.py` line 14 / `main.py` line 21. -/
def AVAILABLE_CELL_TYPES : List String :=
  ["LFP", "NMC", "NCA", "LMO", "LTO", "NiMH", "Lead-Acid"]

/-- The mode list from `cell_main.py` line 17. -/
def OPERATING_MODES : List String := ["Idle", "Charging", "Discharging"]

/-- Base voltage from `cell_main.py` line 24:
`voltage_base = 3.2 if cell_type == "lfp" else 3.6` (a case-SENSITIVE
comparison against the lowercase tag). -/
def voltage_base (cell_type : String) : ℚ :=
  if cell_type = "lfp" then 32/10 else 36/10

/-- One row of the table built by `generate_cell_data` (`cell_main.py`
lines 38–46): the dict keys are `Cell ID`, `Type`, `Mode`, `🔋 Voltage (V)`,
`⚡ Current (A)`, `🌡️ Temp (°C)`, `⚙️ Capacity (Wh)`. -/
structure Reading where
  cellId : String
  ctype : String
  mode : String
  voltage : ℚ
  current : ℚ
  temp : ℚ
  capacity : ℚ
  deriving DecidableEq, Repr

/-- The body of the loop in `generate_cell_data` (`cell_main.py` lines 23–46)
for one cell: `idx` is the 1-based `enumerate` index, `uv uc ut` the entropy
draws behind the `random.uniform` calls for voltage, current and temperature
(the Idle branch makes no current draw; `uc` is simply unused there). -/
def generate_reading (cell_type mode : String) (idx : ℕ) (uv uc ut : ℚ) :
    Reading :=
  let vb := voltage_base cell_type
  let vc : ℚ × ℚ :=
    if mode = "Charging" then
      (round2 (uniform (vb + 1/10) (vb + 5/10) uv), round2 (uniform 1 5 uc))
    else if mode = "Discharging" then
      (round2 (uniform (vb - 5/10) (vb - 1/10) uv), round2 (uniform (1/2) 3 uc))
    else
      (round2 (uniform (vb - 5/100) (vb + 5/100) uv), 0)
  { cellId := "Cell_" ++ toString idx
    ctype := str_upper cell_type
    mode := mode
    voltage := vc.1
    current := vc.2
    temp := round1 (uniform 25 40 ut)
    capacity := round2 (vc.1 * vc.2) }

/-- `generate_cell_data(cell_selection, mode)` from `cell_main.py`
lines 21–47: one `Reading` per element of `cell_selection`, in order, with
1-based indices from `enumerate(..., start=1)`.  The entropy stream `u` is
consumed three slots per cell. -/
def generate_cell_data (cell_selection : List String) (mode : String)
    (u : ℕ → ℚ) : List Reading :=
  cell_selection.enum.map fun p =>
    generate_reading p.2 mode (p.1 + 1) (u (3 * p.1)) (u (3 * p.1 + 1))
      (u (3 * p.1 + 2))

/-- One row of the inline table in `main.py` lines 44–51: same keys but no
`Mode` key. -/
structure MainReading where
  cellId : String
  ctype : String
  voltage : ℚ
  current : ℚ
  temp : ℚ
  capacity : ℚ
  deriving DecidableEq, Repr

/-- The body of the inline generation loop in `main.py` lines 38–51:
voltage is the deterministic base value (no random draw, no rounding),
current is uniform in `[0.5, 5.0]` regardless of any mode (there is none),
temperature uniform in `[25, 40]`, capacity derived. -/
def main_generate_row (cell_type : String) (idx : ℕ) (uc ut : ℚ) :
    MainReading :=
  let voltage : ℚ := if cell_type = "lfp" then 32/10 else 36/10
  let current := round2 (uniform (1/2) 5 uc)
  { cellId := "Cell_" ++ toString idx
    ctype := str_upper cell_type
    voltage := voltage
    current := current
    temp := round1 (uniform 25 40 ut)
    capacity := round2 (voltage * current) }

/-- The inline generation loop of `main.py` lines 37–51 over a whole
selection; two entropy slots per cell (current, temperature). -/
def main_cell_data (cell_selection : List String) (u : ℕ → ℚ) :
    List MainReading :=
  cell_selection.enum.map fun p =>
    main_generate_row p.2 (p.1 + 1) (u (2 * p.1)) (u (2 * p.1 + 1))

/-- Python `list(dict.fromkeys(l))`: drop duplicates keeping the first
occurrence, preserving order (`main.py` line 30). -/
def dict_fromkeys (l : List String) : List String :=
  l.foldl (fun acc c => if c ∈ acc then acc else acc ++ [c]) []

/-- The selection pipeline of `main.py` lines 23–30: keep the non-empty
(truthy) selections lowercased, drop whitespace-only entries, then remove
duplicates keeping first occurrences. -/
def cell_selection_pipeline (raw : List String) : List String :=
  dict_fromkeys
    (((raw.filter fun s => s ≠ "").map str_lower).filter fun c =>
      ¬ str_blank c)

/-- The summary rolled up by `show_metrics` (`cell_main.py` lines 49–55) and
by the per-step records of `performance_and_graphs` (lines 168–171): mean
voltage, mean current, mean temperature, summed capacity. -/
structure AggregateRecord where
  avgVoltage : ℚ
  avgCurrent : ℚ
  avgTemp : ℚ
  totalCapacity : ℚ
  deriving DecidableEq, Repr

/-- Aggregation over a fleet snapshot.  The means divide by the reading
count; on an empty snapshot that division is by zero, which the Python code
does not guard against — modelled as `none` (the DivisionByZero-class
failure of spec §4.3/§7). -/
def aggregate (s : List Reading) : Option AggregateRecord :=
  if s.length = 0 then none
  else some
    { avgVoltage := (s.map Reading.voltage).sum / s.length
      avgCurrent := (s.map Reading.current).sum / s.length
      avgTemp := (s.map Reading.temp).sum / s.length
      totalCapacity := (s.map Reading.capacity).sum }

/-- Outcome of one submission of the dashboard form (`cell_main.py`
lines 105–115): either the empty-selection warning, or a generated
dashboard whose metrics come from `aggregate`. -/
inductive DashboardOutcome where
  | warned
  | generated (agg : AggregateRecord)
  deriving Repr

/-- The guarded dashboard flow of `cell_main.py` lines 105–115: an empty
selection is rejected with a warning before any generation; otherwise the
snapshot is generated and aggregated.  `none` would mean the aggregator's
division-by-zero branch was reached. -/
def dashboard_submit (cell_types : List String) (mode : String) (u : ℕ → ℚ) :
    Option DashboardOutcome :=
  if cell_types = [] then some .warned
  else (aggregate (generate_cell_data cell_types mode u)).map .generated

/-- One record appended by the loop of `performance_and_graphs`
(`cell_main.py` lines 164–179): a time index, a mode tag, and the
aggregate of a freshly generated snapshot. -/
structure SeriesRecord where
  time : ℕ
  mode : String
  agg : Option AggregateRecord
  deriving Repr

/-- The time-series sampler: the nested loop of `performance_and_graphs`
(`cell_main.py` lines 164–179), parametric in the mode sequence, step count
and cell selection (the source instantiates them with `OPERATING_MODES`,
`10`, and `["lfp","nmc","nca"]`, see `performance_records`).  Entropy is
supplied per (mode, step). -/
def sample_series (modes : List String) (steps : ℕ)
    (cell_selection : List String) (u : String → ℕ → ℕ → ℚ) :
    List SeriesRecord :=
  modes.flatMap fun mode =>
    (List.range steps).map fun t =>
      { time := t
        mode := mode
        agg := aggregate (generate_cell_data cell_selection mode (u mode t)) }

/-- The records built by `performance_and_graphs` itself (`cell_main.py`
lines 161–179): all three operating modes, 10 steps each, fixed selection. -/
def performance_records (u : String → ℕ → ℕ → ℚ) : List SeriesRecord :=
  sample_series OPERATING_MODES 10 ["lfp", "nmc", "nca"] u

/-- Column names of the table (and hence of the CSV header written by
`download_csv`, `cell_main.py` lines 73–80): the dict keys of
`generate_cell_data`, verbatim, emoji included. -/
def cell_main_columns : List String :=
  ["Cell ID", "Type", "Mode", "🔋 Voltage (V)", "⚡ Current (A)",
   "🌡️ Temp (°C)", "⚙️ Capacity (Wh)"]

/-- Column names of the inline table of `main.py` lines 44–51: same keys but
without `Mode`. -/
def main_columns : List String :=
  ["Cell ID", "Type", "🔋 Voltage (V)", "⚡ Current (A)",
   "🌡️ Temp (°C)", "⚙️ Capacity (Wh)"]

/-- The header line `df.to_csv` writes: the column names joined by commas. -/
def csv_header (cols : List String) : String := String.intercalate "," cols

/-- The header claimed by spec §6 for mode-carrying flows (plain names, no
emoji). -/
def spec_columns_with_mode : List String :=
  ["Cell ID", "Type", "Mode", "Voltage (V)", "Current (A)", "Temp (°C)",
   "Capacity (Wh)"]

/-- The header claimed by spec §6 for the flow without a Mode column. -/
def spec_columns_without_mode : List String :=
  ["Cell ID", "Type", "Voltage (V)", "Current (A)", "Temp (°C)",
   "Capacity (Wh)"]

/-- Two strings are case variants of each other when they agree after
lowercasing (the sense in which spec §4.1 calls `cell_type`
case-insensitive). -/
def caseVariant (s t : String) : Prop := str_lower s = str_lower t

instance (s t : String) : Decidable (caseVariant s t) := by
  unfold caseVariant; infer_instance

/-! ### Helper lemmas about rounding and uniform draws -/

lemma le_round2 {m : ℤ} {x : ℚ} (h : (m : ℚ) / 100 ≤ x) :
    (m : ℚ) / 100 ≤ round2 x := by
  unfold round2
  have hm : m ≤ round (100 * x) := by
    rw [round_eq, Int.le_floor]
    linarith
  have hm' : (m : ℚ) ≤ (round (100 * x) : ℤ) := by exact_mod_cast hm
  linarith

lemma round2_le {n : ℤ} {x : ℚ} (h : x ≤ (n : ℚ) / 100) :
    round2 x ≤ (n : ℚ) / 100 := by
  unfold round2
  have hn : round (100 * x) ≤ n := by
    rw [round_eq, ← Int.lt_add_one_iff, Int.floor_lt]
    push_cast
    linarith
  have hn' : ((round (100 * x) : ℤ) : ℚ) ≤ (n : ℚ) := by exact_mod_cast hn
  linarith

lemma le_round1 {m : ℤ} {x : ℚ} (h : (m : ℚ) / 10 ≤ x) :
    (m : ℚ) / 10 ≤ round1 x := by
  unfold round1
  have hm : m ≤ round (10 * x) := by
    rw [round_eq, Int.le_floor]
    linarith
  have hm' : (m : ℚ) ≤ (round (10 * x) : ℤ) := by exact_mod_cast hm
  linarith

lemma round1_le {n : ℤ} {x : ℚ} (h : x ≤ (n : ℚ) / 10) :
    round1 x ≤ (n : ℚ) / 10 := by
  unfold round1
  have hn : round (10 * x) ≤ n := by
    rw [round_eq, ← Int.lt_add_one_iff, Int.floor_lt]
    push_cast
    linarith
  have hn' : ((round (10 * x) : ℤ) : ℚ) ≤ (n : ℚ) := by exact_mod_cast hn
  linarith

lemma uniform_bounds {a b u : ℚ} (hab : a ≤ b) (h0 : 0 ≤ u) (h1 : u ≤ 1) :
    a ≤ uniform a b u ∧ uniform a b u ≤ b := by
  unfold uniform
  constructor
  · nlinarith
  · nlinarith

lemma round2_uniform_mem (a b : ℚ) {u : ℚ} (m n : ℤ)
    (hm : a = (m : ℚ) / 100) (hn : b = (n : ℚ) / 100) (hab : a ≤ b)
    (h0 : 0 ≤ u) (h1 : u ≤ 1) :
    a ≤ round2 (uniform a b u) ∧ round2 (uniform a b u) ≤ b := by
  obtain ⟨hl, hr⟩ := uniform_bounds hab h0 h1
  constructor
  · rw [hm] at hl ⊢
    exact le_round2 hl
  · rw [hn] at hr ⊢
    exact round2_le hr

lemma round1_uniform_mem (a b : ℚ) {u : ℚ} (m n : ℤ)
    (hm : a = (m : ℚ) / 10) (hn : b = (n : ℚ) / 10) (hab : a ≤ b)
    (h0 : 0 ≤ u) (h1 : u ≤ 1) :
    a ≤ round1 (uniform a b u) ∧ round1 (uniform a b u) ≤ b := by
  obtain ⟨hl, hr⟩ := uniform_bounds hab h0 h1
  constructor
  · rw [hm] at hl ⊢
    exact le_round1 hl
  · rw [hn] at hr ⊢
    exact round1_le hr

lemma voltage_base_eq (ct : String) :
    voltage_base ct = 32/10 ∨ voltage_base ct = 36/10 := by
  unfold voltage_base
  split
  · exact Or.inl rfl
  · exact Or.inr rfl

/-! ### Branch-level descriptions of `generate_reading` -/

lemma gr_charging (ct : String) (idx : ℕ) (uv uc ut : ℚ) :
    (generate_reading ct "Charging" idx uv uc ut).voltage =
      round2 (uniform (voltage_base ct + 1/10) (voltage_base ct + 5/10) uv) ∧
    (generate_reading ct "Charging" idx uv uc ut).current =
      round2 (uniform 1 5 uc) :=
  ⟨rfl, rfl⟩

lemma gr_discharging (ct : String) (idx : ℕ) (uv uc ut : ℚ) :
    (generate_reading ct "Discharging" idx uv uc ut).voltage =
      round2 (uniform (voltage_base ct - 5/10) (voltage_base ct - 1/10) uv) ∧
    (generate_reading ct "Discharging" idx uv uc ut).current =
      round2 (uniform (1/2) 3 uc) := by
  constructor
  · simp +decide [generate_reading]
  · simp +decide [generate_reading]

lemma gr_other (ct mode : String) (idx : ℕ) (uv uc ut : ℚ)
    (hc : mode ≠ "Charging") (hd : mode ≠ "Discharging") :
    (generate_reading ct mode idx uv uc ut).voltage =
      round2 (uniform (voltage_base ct - 5/100) (voltage_base ct + 5/100) uv) ∧
    (generate_reading ct mode idx uv uc ut).current = 0 := by
  constructor
  · simp [generate_reading, hc, hd]
  · simp [generate_reading, hc, hd]

lemma gr_temp (ct mode : String) (idx : ℕ) (uv uc ut : ℚ) :
    (generate_reading ct mode idx uv uc ut).temp =
      round1 (uniform 25 40 ut) :=
  rfl

/-! ### Claim theorems -/

/-- C1: every reading produced by the generators — `generate_cell_data` of
`cell_main.py` for any cell type and any operating mode, and the inline loop
of `main.py` — has its capacity field equal to `round2` of the product of the
reading's own (already rounded) voltage and current fields; capacity is
derived, never independently sampled. -/
theorem C1_capacity_derived :
    (∀ (sel : List String) (mode : String) (u : ℕ → ℚ),
      ∀ r ∈ generate_cell_data sel mode u,
        r.capacity = round2 (r.voltage * r.current)) ∧
    (∀ (sel : List String) (u : ℕ → ℚ),
      ∀ r ∈ main_cell_data sel u,
        r.capacity = round2 (r.voltage * r.current)) := by
  constructor
  · intro sel mode u r hr
    obtain ⟨p, _, rfl⟩ := List.mem_map.mp hr
    rfl
  · intro sel u r hr
    obtain ⟨p, _, rfl⟩ := List.mem_map.mp hr
    rfl

/-- Witness for C1: the concrete reading generated for `"lfp"` under `"Idle"`
with zero entropy, in both generators. -/
theorem C1_capacity_derived_witness :
    (generate_reading "lfp" "Idle" 1 0 0 0).capacity =
      round2 ((generate_reading "lfp" "Idle" 1 0 0 0).voltage *
        (generate_reading "lfp" "Idle" 1 0 0 0).current) ∧
    (main_generate_row "lfp" 1 0 0).capacity =
      round2 ((main_generate_row "lfp" 1 0 0).voltage *
        (main_generate_row "lfp" 1 0 0).current) := by
  constructor
  · exact C1_capacity_derived.1 ["lfp"] "Idle" (fun _ => 0) _
      (List.mem_map.mpr ⟨(0, "lfp"), by decide, rfl⟩)
  · exact C1_capacity_derived.2 ["lfp"] (fun _ => 0) _
      (List.mem_map.mpr ⟨(0, "lfp"), by decide, rfl⟩)

/-- C2: for every cell type, every valid operating mode, and entropy draws in
`[0, 1]`, the generated reading has voltage in the documented band for that
mode and base voltage (Charging `[base+0.1, base+0.5]`, Discharging
`[base-0.5, base-0.1]`, Idle `[base-0.05, base+0.05]`), current in the
documented range (Charging `[1, 5]`, Discharging `[0.5, 3]`, Idle exactly 0),
and temperature in `[25, 40]` regardless of mode. -/
theorem C2_reading_bounds (ct mode : String) (idx : ℕ) (uv uc ut : ℚ)
    (huv0 : 0 ≤ uv) (huv1 : uv ≤ 1) (huc0 : 0 ≤ uc) (huc1 : uc ≤ 1)
    (hut0 : 0 ≤ ut) (hut1 : ut ≤ 1) (r : Reading)
    (hr : r = generate_reading ct mode idx uv uc ut) :
    (mode = "Charging" →
      voltage_base ct + 1/10 ≤ r.voltage ∧
      r.voltage ≤ voltage_base ct + 5/10 ∧
      1 ≤ r.current ∧ r.current ≤ 5) ∧
    (mode = "Discharging" →
      voltage_base ct - 5/10 ≤ r.voltage ∧
      r.voltage ≤ voltage_base ct - 1/10 ∧
      1/2 ≤ r.current ∧ r.current ≤ 3) ∧
    (mode = "Idle" →
      voltage_base ct - 5/100 ≤ r.voltage ∧
      r.voltage ≤ voltage_base ct + 5/100 ∧
      r.current = 0) ∧
    (25 ≤ r.temp ∧ r.temp ≤ 40) := by
  subst hr
  refine ⟨?_, ?_, ?_, ?_⟩
  · rintro rfl
    obtain ⟨hv, hc⟩ := gr_charging ct idx uv uc ut
    rw [hv, hc]
    obtain ⟨h3, h4⟩ := round2_uniform_mem 1 5 100 500 (by norm_num)
      (by norm_num) (by norm_num) huc0 huc1
    rcases voltage_base_eq ct with h | h <;> rw [h]
    · obtain ⟨h1, h2⟩ := round2_uniform_mem (32/10 + 1/10) (32/10 + 5/10)
        330 370 (by norm_num) (by norm_num) (by norm_num) huv0 huv1
      exact ⟨h1, h2, h3, h4⟩
    · obtain ⟨h1, h2⟩ := round2_uniform_mem (36/10 + 1/10) (36/10 + 5/10)
        370 410 (by norm_num) (by norm_num) (by norm_num) huv0 huv1
      exact ⟨h1, h2, h3, h4⟩
  · rintro rfl
    obtain ⟨hv, hc⟩ := gr_discharging ct idx uv uc ut
    rw [hv, hc]
    obtain ⟨h3, h4⟩ := round2_uniform_mem (1/2) 3 50 300 (by norm_num)
      (by norm_num) (by norm_num) huc0 huc1
    rcases voltage_base_eq ct with h | h <;> rw [h]
    · obtain ⟨h1, h2⟩ := round2_uniform_mem (32/10 - 5/10) (32/10 - 1/10)
        270 310 (by norm_num) (by norm_num) (by norm_num) huv0 huv1
      exact ⟨h1, h2, h3, h4⟩
    · obtain ⟨h1, h2⟩ := round2_uniform_mem (36/10 - 5/10) (36/10 - 1/10)
        310 350 (by norm_num) (by norm_num) (by norm_num) huv0 huv1
      exact ⟨h1, h2, h3, h4⟩
  · rintro rfl
    obtain ⟨hv, hc⟩ := gr_other ct "Idle" idx uv uc ut (by decide) (by decide)
    rw [hv]
    rcases voltage_base_eq ct with h | h <;> rw [h]
    · obtain ⟨h1, h2⟩ := round2_uniform_mem (32/10 - 5/100) (32/10 + 5/100)
        315 325 (by norm_num) (by norm_num) (by norm_num) huv0 huv1
      exact ⟨h1, h2, hc⟩
    · obtain ⟨h1, h2⟩ := round2_uniform_mem (36/10 - 5/100) (36/10 + 5/100)
        355 365 (by norm_num) (by norm_num) (by norm_num) huv0 huv1
      exact ⟨h1, h2, hc⟩
  · rw [gr_temp]
    exact round1_uniform_mem 25 40 250 400 (by norm_num) (by norm_num)
      (by norm_num) hut0 hut1

/-- Witness for C2: the reading for `"lfp"` under `"Idle"` with zero entropy
has temperature in `[25, 40]`, current exactly 0, and voltage at the lower
edge of the Idle band. -/
theorem C2_reading_bounds_witness :
    (25 ≤ (generate_reading "lfp" "Idle" 1 0 0 0).temp ∧
      (generate_reading "lfp" "Idle" 1 0 0 0).temp ≤ 40) ∧
    (generate_reading "lfp" "Idle" 1 0 0 0).current = 0 ∧
    voltage_base "lfp" - 5/100 ≤ (generate_reading "lfp" "Idle" 1 0 0 0).voltage := by
  have h := C2_reading_bounds "lfp" "Idle" 1 0 0 0 (by norm_num) (by norm_num)
    (by norm_num) (by norm_num) (by norm_num) (by norm_num) _ rfl
  exact ⟨h.2.2.2, (h.2.2.1 rfl).2.2, (h.2.2.1 rfl).1⟩

/-- C10: `generate_cell_data` is total in its mode argument — every mode
string other than exactly "Charging" and "Discharging" takes the `else`
(Idle) branch, yielding current exactly 0 and voltage within 0.05 of the
base voltage; no mode value is rejected. -/
theorem C10_unknown_mode_takes_idle_branch (ct mode : String) (idx : ℕ)
    (uv uc ut : ℚ) (hc : mode ≠ "Charging") (hd : mode ≠ "Discharging")
    (huv0 : 0 ≤ uv) (huv1 : uv ≤ 1) :
    (generate_reading ct mode idx uv uc ut).current = 0 ∧
    voltage_base ct - 5/100 ≤ (generate_reading ct mode idx uv uc ut).voltage ∧
    (generate_reading ct mode idx uv uc ut).voltage ≤ voltage_base ct + 5/100 := by
  obtain ⟨hv, hcur⟩ := gr_other ct mode idx uv uc ut hc hd
  refine ⟨hcur, ?_⟩
  rw [hv]
  rcases voltage_base_eq ct with h | h <;> rw [h]
  · exact round2_uniform_mem (32/10 - 5/100) (32/10 + 5/100) 315 325
      (by norm_num) (by norm_num) (by norm_num) huv0 huv1
  · exact round2_uniform_mem (36/10 - 5/100) (36/10 + 5/100) 355 365
      (by norm_num) (by norm_num) (by norm_num) huv0 huv1

/-- Witness for C10: the unrecognized mode tag "Maintenance" (from the task
manager's task list) falls through to the Idle branch. -/
theorem C10_unknown_mode_witness :
    (generate_reading "nmc" "Maintenance" 1 0 0 0).current = 0 ∧
    voltage_base "nmc" - 5/100 ≤
      (generate_reading "nmc" "Maintenance" 1 0 0 0).voltage ∧
    (generate_reading "nmc" "Maintenance" 1 0 0 0).voltage ≤
      voltage_base "nmc" + 5/100 :=
  C10_unknown_mode_takes_idle_branch "nmc" "Maintenance" 1 0 0 0 (by decide)
    (by decide) (by norm_num) (by norm_num)

/-- Counterexample to C3 as stated: the comparison on `cell_main.py` line 24
is case-sensitive, so the case variant "LFP" of the LFP tag yields base
voltage 3.6, not 3.2 (visible in the generated Idle reading, whose voltage
comes out centred on 3.6). -/
theorem C3_counterexample :
    voltage_base "LFP" = 36/10 ∧ (36/10 : ℚ) ≠ 32/10 ∧
    (generate_reading "LFP" "Idle" 1 (1/2) 0 0).voltage = 36/10 := by
  refine ⟨by norm_num +decide [voltage_base], by norm_num, ?_⟩
  simp +decide [generate_reading, voltage_base, uniform]
  norm_num [round2, round_eq]

/-- C3 (amended): the generator's base-voltage test matches exactly the
lowercase tag "lfp"; both callers lowercase every selection before invoking
it, so after that lowercasing every case variant of LFP yields base voltage
3.2 and every case variant of any other enumerated tag yields 3.6. -/
theorem C3_case_insensitive_after_lowering (s : String) :
    (caseVariant s "LFP" → voltage_base (str_lower s) = 32/10) ∧
    (∀ t ∈ ["NMC", "NCA", "LMO", "LTO", "NiMH", "Lead-Acid"],
      caseVariant s t → voltage_base (str_lower s) = 36/10) := by
  constructor
  · intro h
    unfold caseVariant at h
    rw [h, show str_lower "LFP" = "lfp" from by decide]
    norm_num +decide [voltage_base]
  · intro t ht h
    unfold caseVariant at h
    rw [h]
    have hne : str_lower t ≠ "lfp" := by fin_cases ht <;> decide
    unfold voltage_base
    rw [if_neg hne]

/-- Witness for C3 (amended): the case variants "Lfp" and "NiMh". -/
theorem C3_case_insensitive_witness :
    voltage_base (str_lower "Lfp") = 32/10 ∧
    voltage_base (str_lower "NiMh") = 36/10 :=
  ⟨(C3_case_insensitive_after_lowering "Lfp").1 (by decide),
   (C3_case_insensitive_after_lowering "NiMh").2 "NiMH" (by decide) (by decide)⟩

/-- Counterexample to C4 as stated: with the raw selection
`["LFP", "LFP"]` (two non-empty selections) the `main.py` pipeline
deduplicates before generating, so the snapshot has 1 reading, not 2. -/
theorem C4_counterexample :
    (main_cell_data (cell_selection_pipeline ["LFP", "LFP"]) fun _ => 0).length
      = 1 ∧
    (["LFP", "LFP"].filter fun s => s ≠ "").length = 2 ∧ (1 : ℕ) ≠ 2 := by
  refine ⟨by decide, by decide, by decide⟩

/-- C4 (amended): the fleet generator returns exactly one reading per element
of the selection list it is given, in input order, with 1-based Cell IDs
assigned by position; in the `main.py` flow the caller first drops empty
selections and removes duplicates, so the snapshot length equals the number
of distinct non-empty selections. -/
theorem C4_fleet_structure (sel : List String) (mode : String) (u : ℕ → ℚ) :
    (generate_cell_data sel mode u).length = sel.length ∧
    (∀ i, i < sel.length →
      ((generate_cell_data sel mode u)[i]?).map Reading.ctype =
        (sel[i]?).map str_upper ∧
      ((generate_cell_data sel mode u)[i]?).map Reading.cellId =
        (sel[i]?).map fun _ => "Cell_" ++ toString (i + 1)) ∧
    (∀ (raw : List String) (u2 : ℕ → ℚ),
      (main_cell_data (cell_selection_pipeline raw) u2).length =
        (cell_selection_pipeline raw).length) := by
  refine ⟨by simp [generate_cell_data], ?_, ?_⟩
  · intro i _
    constructor <;>
      · simp only [generate_cell_data, List.getElem?_map, List.getElem?_enum]
        cases sel[i]? <;> rfl
  · intro raw u2
    simp [main_cell_data]

/-- Witness for C4 (amended): position 1 of the two-cell selection
`["lfp", "nmc"]` carries type "NMC" and id "Cell_2". -/
theorem C4_fleet_structure_witness :
    ((generate_cell_data ["lfp", "nmc"] "Charging" fun _ => 0)[1]?).map
      Reading.ctype = some "NMC" ∧
    ((generate_cell_data ["lfp", "nmc"] "Charging" fun _ => 0)[1]?).map
      Reading.cellId = some "Cell_2" := by
  have h := (C4_fleet_structure ["lfp", "nmc"] "Charging" fun _ => 0).2.1 1
    (by decide)
  exact ⟨h.1.trans (by decide), h.2.trans (by decide)⟩

/-- Counterexample to C5 as stated: the actual column names carry emoji
prefixes, so the header is not the plain
`Cell ID, Type, Mode?, Voltage (V), Current (A), Temp (°C), Capacity (Wh)`
of the spec in either flow. -/
theorem C5_counterexample :
    cell_main_columns ≠ spec_columns_with_mode ∧
    main_columns ≠ spec_columns_without_mode := by
  refine ⟨by decide, by decide⟩

/-- C5 (amended): the exported header row is fixed, in the claimed order,
but the four numeric column names carry emoji prefixes:
`Cell ID,Type,Mode,🔋 Voltage (V),⚡ Current (A),🌡️ Temp (°C),⚙️ Capacity (Wh)`
in `cell_main.py`'s flows (which take a mode per call), and the same header
minus exactly the `Mode` column in `main.py`'s flow (which has no mode). -/
theorem C5_header_exact :
    csv_header cell_main_columns =
      "Cell ID,Type,Mode,🔋 Voltage (V),⚡ Current (A),🌡️ Temp (°C),⚙️ Capacity (Wh)" ∧
    csv_header main_columns =
      "Cell ID,Type,🔋 Voltage (V),⚡ Current (A),🌡️ Temp (°C),⚙️ Capacity (Wh)" ∧
    main_columns = cell_main_columns.filter fun c => c ≠ "Mode" := by
  refine ⟨by decide, by decide, by decide⟩

/-- C6: the aggregator fails (returns `none`, the DivisionByZero-class
failure) exactly on the empty snapshot, and under the dashboard's
empty-selection guard the failure branch is never reached: every submission
either warns on an empty selection or produces a generated dashboard. -/
theorem C6_empty_aggregate_guarded :
    (∀ s : List Reading, aggregate s = none ↔ s = []) ∧
    (∀ (cts : List String) (mode : String) (u : ℕ → ℚ),
      dashboard_submit cts mode u ≠ none) := by
  have hag : ∀ s : List Reading, aggregate s = none ↔ s = [] := by
    intro s
    rcases eq_or_ne s [] with rfl | hs
    · simp [aggregate]
    · have hl : s.length ≠ 0 := by simpa [List.length_eq_zero] using hs
      simp [aggregate, hl, hs]
  refine ⟨hag, ?_⟩
  intro cts mode u
  unfold dashboard_submit
  rcases eq_or_ne cts [] with rfl | hne
  · simp
  · rw [if_neg hne]
    have hsnap : generate_cell_data cts mode u ≠ [] := by
      intro h
      apply hne
      have := congrArg List.length h
      simpa [generate_cell_data, List.length_eq_zero] using this
    have : aggregate (generate_cell_data cts mode u) ≠ none :=
      fun h => hsnap ((hag _).mp h)
    simp [Option.map_eq_none', this]

/-- Witness for C6: the empty snapshot fails, while submissions with an empty
and a one-cell selection both avoid the failure branch. -/
theorem C6_empty_aggregate_witness :
    aggregate [] = none ∧
    dashboard_submit [] "Idle" (fun _ => 0) ≠ none ∧
    dashboard_submit ["lfp"] "Idle" (fun _ => 0) ≠ none :=
  ⟨(C6_empty_aggregate_guarded.1 []).mpr rfl,
   C6_empty_aggregate_guarded.2 [] "Idle" fun _ => 0,
   C6_empty_aggregate_guarded.2 ["lfp"] "Idle" fun _ => 0⟩

/-- C7: for every ordered sequence of modes and every step count, the
time-series sampler emits exactly `modes.length * steps` records, grouped
contiguously by mode in input order, with time indices `0 .. steps-1`
ascending within each mode. -/
theorem C7_sample_series_structure (modes : List String) (steps : ℕ)
    (sel : List String) (u : String → ℕ → ℕ → ℚ) :
    (sample_series modes steps sel u).length = modes.length * steps ∧
    (sample_series modes steps sel u).map (fun rec => (rec.time, rec.mode)) =
      modes.flatMap fun mode => (List.range steps).map fun t => (t, mode) := by
  constructor
  · simp [sample_series, Function.comp_def, List.map_const',
      List.sum_replicate, smul_eq_mul]
  · simp [sample_series, List.map_flatMap, Function.comp_def]

/-- C8: the aggregator is order-independent — permuting the snapshot's
readings yields the same mean voltage, mean current, mean temperature and
summed capacity. -/
theorem C8_aggregate_perm_invariant (s s' : List Reading) (h : s.Perm s') :
    aggregate s = aggregate s' := by
  unfold aggregate
  rw [h.length_eq, (h.map Reading.voltage).sum_eq,
    (h.map Reading.current).sum_eq, (h.map Reading.temp).sum_eq,
    (h.map Reading.capacity).sum_eq]

/-- Witness for C8: swapping a concrete two-reading snapshot leaves the
aggregate unchanged. -/
theorem C8_aggregate_perm_witness :
    aggregate [generate_reading "lfp" "Idle" 1 0 0 0,
      generate_reading "nmc" "Charging" 2 0 0 0] =
    aggregate [generate_reading "nmc" "Charging" 2 0 0 0,
      generate_reading "lfp" "Idle" 1 0 0 0] :=
  C8_aggregate_perm_invariant _ _
    (List.Perm.swap (generate_reading "nmc" "Charging" 2 0 0 0)
      (generate_reading "lfp" "Idle" 1 0 0 0) [])

/-- Counterexample to C9 as stated: the two generators are not
observationally equivalent — on the common selection element "lfp" with
identical entropy, `main.py`'s row has voltage exactly 3.2 (the
deterministic base) while `generate_cell_data` under Charging produces 3.3. -/
theorem C9_counterexample :
    (main_generate_row "lfp" 1 0 0).voltage = 32/10 ∧
    (generate_reading "lfp" "Charging" 1 0 0 0).voltage = 33/10 ∧
    (32/10 : ℚ) ≠ 33/10 := by
  refine ⟨rfl, ?_, by norm_num⟩
  simp +decide [generate_reading, voltage_base, uniform]
  norm_num [round2, round_eq]

/-- C9 (amended): `main.py`'s inline generator is not equivalent to
`generate_cell_data`: its voltage is deterministically the base value
(3.2 for "lfp", 3.6 otherwise) with no mode-dependent band, its current is
uniform in `[0.5, 5.0]` with no mode input, and its rows carry no Mode
field; it does agree on the Cell ID and Type fields and on the
capacity-derivation rule. -/
theorem C9_main_row_behavior (ct : String) (idx : ℕ) (uc ut : ℚ)
    (h0 : 0 ≤ uc) (h1 : uc ≤ 1) :
    (main_generate_row ct idx uc ut).voltage =
      (if ct = "lfp" then 32/10 else 36/10) ∧
    (1/2 ≤ (main_generate_row ct idx uc ut).current ∧
      (main_generate_row ct idx uc ut).current ≤ 5) ∧
    (main_generate_row ct idx uc ut).capacity =
      round2 ((main_generate_row ct idx uc ut).voltage *
        (main_generate_row ct idx uc ut).current) ∧
    (main_generate_row ct idx uc ut).cellId =
      (generate_reading ct "Idle" idx 0 0 0).cellId ∧
    (main_generate_row ct idx uc ut).ctype =
      (generate_reading ct "Idle" idx 0 0 0).ctype := by
  refine ⟨rfl, ?_, rfl, rfl, rfl⟩
  have hcur : (main_generate_row ct idx uc ut).current =
      round2 (uniform (1/2) 5 uc) := rfl
  rw [hcur]
  exact round2_uniform_mem (1/2) 5 50 500 (by norm_num) (by norm_num)
    (by norm_num) h0 h1

/-- Witness for C9 (amended): the "lfp" row at zero entropy. -/
theorem C9_main_row_witness :
    (main_generate_row "lfp" 1 0 0).voltage =
      (if ("lfp" : String) = "lfp" then 32/10 else 36/10) ∧
    1/2 ≤ (main_generate_row "lfp" 1 0 0).current :=
  ⟨(C9_main_row_behavior "lfp" 1 0 0 (by norm_num) (by norm_num)).1,
   (C9_main_row_behavior "lfp" 1 0 0 (by norm_num) (by norm_num)).2.1.1⟩

end CellSim
